import Mathlib

/-!
Verification of `list.py` ("List all RIPE Atlas probes", balakrishnanc/ripe-utils).

The development shallowly embeds the record-normalization classes
(`Tag`, `Status`, `Point`, `Geometry`, `Probe`), the serialization performed
by `main`, and the pagination loop `get_probes`.

Raw JSON-like values are modelled by the inductive `Val`; a raw record
(a Python `dict`) is an association list with unique keys, looked up with
last-binding-wins semantics (`getKey`), which coincides with `dict`
behaviour for the duplicate-free objects produced by a JSON parser.

Python exceptions are modelled by the `Err` type and `Except`-valued
constructors: `setattr` on a `__slots__` class raises `AttributeError` for
an unrecognized name (`Err.attributeError`), `t['name']` on a `dict` missing
the key raises `KeyError` (`Err.missingField`), destructuring
`self.x, self.y = coords` with the wrong arity raises `ValueError`
(`Err.valueError`), and operations on values of the wrong runtime type raise
`TypeError` (`Err.typeError`).
-/

/-- A JSON-like Python value as produced by `response.json()`:
`None`, `str`, `int`, `float` (modelled exactly as a rational, since the
program performs no arithmetic on numbers), `bool`, `list`, `dict`. -/
inductive Val where
  | null : Val
  | str (s : String) : Val
  | int (n : Int) : Val
  | float (q : Rat) : Val
  | bool (b : Bool) : Val
  | arr (xs : List Val) : Val
  | obj (kvs : List (String × Val)) : Val

/-- A raw record: a Python `dict` from string keys to values. -/
abbrev RawObj := List (String × Val)

/-- Python truthiness of a value (`if v:`): `None`, `''`, `0`, `0.0`,
`False`, `[]` and `{}` are falsy, everything else is truthy. -/
def truthy : Val → Bool
  | .null => false
  | .str s => !(s == "")
  | .int n => !(n == 0)
  | .float q => decide (¬ q = 0)
  | .bool b => b
  | .arr xs => !xs.isEmpty
  | .obj kvs => !kvs.isEmpty

/-- `dict` lookup `d[k]`. For the duplicate-free key lists produced by a
JSON parser this is ordinary lookup; with duplicates the last binding wins,
matching `dict` construction. -/
def getKey : List (String × Val) → String → Option Val
  | [], _ => none
  | (k, v) :: rest, key =>
    match getKey rest key with
    | some w => some w
    | none => if k = key then some v else none

/-- Python exceptions raised by the program. -/
inductive Err where
  | attributeError (name : String) : Err
  | missingField (key : String) : Err
  | typeError : Err
  | valueError : Err
  | httpError (status : Nat) : Err
  | connectionError : Err
  deriving DecidableEq

/-- `class Tag`: `name` and `slug`, both taken verbatim from the raw record. -/
structure Tag where
  name : Val
  slug : Val

/-- `class Status`: slots `since`, `id`, `name`, each defaulting to `''`
and overwritten by keyword arguments. -/
structure Status where
  since : Val
  id : Val
  name : Val

/-- `Status()` — every slot initialized to the empty string. -/
def defaultStatus : Status := ⟨.str "", .str "", .str ""⟩

/-- `setattr` for `Status.__slots__`; an unrecognized keyword raises
`AttributeError` because the class declares `__slots__`. -/
def setAttrStatus (r : Status) (k : String) (v : Val) : Except Err Status :=
  if k = "since" then .ok { r with since := v }
  else if k = "id" then .ok { r with id := v }
  else if k = "name" then .ok { r with name := v }
  else .error (.attributeError k)

/-- The `for k, v in kwargs.items(): setattr(self, k, v)` loop of
`Status.__init__`. -/
def setAllStatus (r : Status) : List (String × Val) → Except Err Status
  | [] => .ok r
  | (k, v) :: rest =>
    match setAttrStatus r k v with
    | .error e => .error e
    | .ok r2 => setAllStatus r2 rest

/-- `Status(**kwargs)`. -/
def mkStatus (kvs : List (String × Val)) : Except Err Status :=
  setAllStatus defaultStatus kvs

/-- `class Point`: `self.x, self.y = coords; self.lat, self.lng = self.y, self.x`. -/
structure Point where
  x : Val
  y : Val
  lat : Val
  lng : Val

/-- The sentinel `Point(-1111.0, -1111.0)` meaning "location unknown". -/
def sentinelPoint : Point :=
  ⟨.float (-1111), .float (-1111), .float (-1111), .float (-1111)⟩

/-- `Point(*coords)`: destructure an iterable of exactly two elements into
`x` and `y` (a wrong arity raises `ValueError`, a non-iterable raises
`TypeError`), then set `lat = y` and `lng = x`.  A two-character string
unpacks into its characters, as in Python; a `dict` unpacks into its keys
(unique in JSON-parsed data). -/
def pointOf : Val → Except Err Point
  | .arr [a, b] => .ok ⟨a, b, b, a⟩
  | .arr _ => .error .valueError
  | .str s =>
    match s.data with
    | [c, d] =>
      .ok ⟨.str (String.mk [c]), .str (String.mk [d]),
           .str (String.mk [d]), .str (String.mk [c])⟩
    | _ => .error .valueError
  | .obj kvs =>
    match kvs with
    | [(k1, _), (k2, _)] => .ok ⟨.str k1, .str k2, .str k2, .str k1⟩
    | _ => .error .valueError
  | _ => .error .typeError

/-- `Geometry` before the `coordinates` post-processing step: slots
`coordinates` and `type`, both defaulting to `''`. -/
structure GeoRaw where
  coordinates : Val
  type : Val

/-- `setattr` for `Geometry.__slots__`. -/
def setAttrGeo (r : GeoRaw) (k : String) (v : Val) : Except Err GeoRaw :=
  if k = "coordinates" then .ok { r with coordinates := v }
  else if k = "type" then .ok { r with type := v }
  else .error (.attributeError k)

/-- The keyword-assignment loop of `Geometry.__init__`. -/
def setAllGeo (r : GeoRaw) : List (String × Val) → Except Err GeoRaw
  | [] => .ok r
  | (k, v) :: rest =>
    match setAttrGeo r k v with
    | .error e => .error e
    | .ok r2 => setAllGeo r2 rest

/-- The normalized `Geometry`: after `__init__`, `coordinates` is always a
`Point`. -/
structure Geometry where
  coordinates : Point
  type : Val

/-- `Geometry()` — falsy `coordinates` slot, hence the sentinel point. -/
def defaultGeometry : Geometry := ⟨sentinelPoint, .str ""⟩

/-- `Geometry(**kwargs)`: default-fill, overwrite from the keyword
arguments, then replace a truthy `coordinates` value by `Point(*value)` and
a falsy one by `Point(-1111.0, -1111.0)`. -/
def mkGeometry (kvs : List (String × Val)) : Except Err Geometry :=
  match setAllGeo ⟨.str "", .str ""⟩ kvs with
  | .error e => .error e
  | .ok g =>
    if truthy g.coordinates then
      match pointOf g.coordinates with
      | .error e => .error e
      | .ok pt => .ok ⟨pt, g.type⟩
    else .ok ⟨sentinelPoint, g.type⟩

/-- `Probe` before the `status`/`geometry`/`tags` post-processing: the 18
`__slots__`, each holding a raw value defaulting to `''`. -/
structure RawProbe where
  address_v4 : Val
  address_v6 : Val
  asn_v4 : Val
  asn_v6 : Val
  country_code : Val
  description : Val
  first_connected : Val
  geometry : Val
  id : Val
  is_anchor : Val
  is_public : Val
  last_connected : Val
  prefix_v4 : Val
  prefix_v6 : Val
  status : Val
  status_since : Val
  tags : Val
  type : Val

/-- All 18 slots initialized to `''` (the first loop of `Probe.__init__`;
`__slots__` is a set, but the defaults are identical so order is
irrelevant). -/
def defaultRaw : RawProbe :=
  ⟨.str "", .str "", .str "", .str "", .str "", .str "", .str "", .str "",
   .str "", .str "", .str "", .str "", .str "", .str "", .str "", .str "",
   .str "", .str ""⟩

/-- The names in `Probe.__slots__`. -/
def probeSlotNames : List String :=
  ["address_v4", "address_v6", "asn_v4", "asn_v6", "country_code",
   "description", "first_connected", "geometry", "id", "is_anchor",
   "is_public", "last_connected", "prefix_v4", "prefix_v6", "status",
   "status_since", "tags", "type"]

/-- `setattr` for `Probe.__slots__`; an unrecognized keyword raises
`AttributeError`. -/
def setAttr (r : RawProbe) (k : String) (v : Val) : Except Err RawProbe :=
  if k = "address_v4" then .ok { r with address_v4 := v }
  else if k = "address_v6" then .ok { r with address_v6 := v }
  else if k = "asn_v4" then .ok { r with asn_v4 := v }
  else if k = "asn_v6" then .ok { r with asn_v6 := v }
  else if k = "country_code" then .ok { r with country_code := v }
  else if k = "description" then .ok { r with description := v }
  else if k = "first_connected" then .ok { r with first_connected := v }
  else if k = "geometry" then .ok { r with geometry := v }
  else if k = "id" then .ok { r with id := v }
  else if k = "is_anchor" then .ok { r with is_anchor := v }
  else if k = "is_public" then .ok { r with is_public := v }
  else if k = "last_connected" then .ok { r with last_connected := v }
  else if k = "prefix_v4" then .ok { r with prefix_v4 := v }
  else if k = "prefix_v6" then .ok { r with prefix_v6 := v }
  else if k = "status" then .ok { r with status := v }
  else if k = "status_since" then .ok { r with status_since := v }
  else if k = "tags" then .ok { r with tags := v }
  else if k = "type" then .ok { r with type := v }
  else .error (.attributeError k)

/-- The keyword-assignment loop of `Probe.__init__`
(`for k, v in kwargs.items(): setattr(self, k, v)`). -/
def setAll (r : RawProbe) : RawObj → Except Err RawProbe
  | [] => .ok r
  | (k, v) :: rest =>
    match setAttr r k v with
    | .error e => .error e
    | .ok r2 => setAll r2 rest

/-- `self.status = Status(**self.status) if self.status else Status()`.
`**` requires a mapping, so a truthy non-`dict` raises `TypeError`. -/
def statusOf (v : Val) : Except Err Status :=
  if truthy v then
    match v with
    | .obj kvs => mkStatus kvs
    | _ => .error .typeError
  else .ok defaultStatus

/-- `self.geometry = Geometry(**self.geometry) if self.geometry else Geometry()`. -/
def geometryOf (v : Val) : Except Err Geometry :=
  if truthy v then
    match v with
    | .obj kvs => mkGeometry kvs
    | _ => .error .typeError
  else .ok defaultGeometry

/-- `Tag(t['name'], t['slug'])` for one element of the raw tags sequence:
each lookup raises `KeyError` when the key is missing (`name` is looked up
first, as arguments are evaluated left to right), and subscripting a
non-`dict` raises `TypeError`. -/
def tagOf : Val → Except Err Tag
  | .obj kvs =>
    match getKey kvs "name" with
    | none => .error (.missingField "name")
    | some n =>
      match getKey kvs "slug" with
      | none => .error (.missingField "slug")
      | some s => .ok ⟨n, s⟩
  | _ => .error .typeError

/-- The list comprehension `[Tag(t['name'], t['slug']) for t in self.tags]`
over an already-iterable sequence, left to right, first failure wins. -/
def tagsOf : List Val → Except Err (List Tag)
  | [] => .ok []
  | t :: rest =>
    match tagOf t with
    | .error e => .error e
    | .ok tg =>
      match tagsOf rest with
      | .error e => .error e
      | .ok tgs => .ok (tg :: tgs)

/-- Iterating `self.tags` in the comprehension: a list iterates its
elements; the default `''` (and an empty `dict`) iterates to nothing, so the
result is `[]`; any other value either is not iterable (`TypeError`) or
yields strings whose subscripting by `'name'` raises `TypeError`. -/
def mkTags : Val → Except Err (List Tag)
  | .arr ts => tagsOf ts
  | .str s => if s = "" then .ok [] else .error .typeError
  | .obj kvs => if kvs.isEmpty then .ok [] else .error .typeError
  | _ => .error .typeError

/-- The fully normalized `Probe` entity. -/
structure Probe where
  address_v4 : Val
  address_v6 : Val
  asn_v4 : Val
  asn_v6 : Val
  country_code : Val
  description : Val
  first_connected : Val
  geometry : Geometry
  id : Val
  is_anchor : Val
  is_public : Val
  last_connected : Val
  prefix_v4 : Val
  prefix_v6 : Val
  status : Status
  status_since : Val
  tags : List Tag
  type : Val

/-- `Probe(**kwargs)`: default-fill all slots, overwrite from the keyword
arguments, then normalize `status`, `geometry` and `tags`, in that order. -/
def mkProbe (kwargs : RawObj) : Except Err Probe :=
  match setAll defaultRaw kwargs with
  | .error e => .error e
  | .ok r =>
    match statusOf r.status with
    | .error e => .error e
    | .ok st =>
      match geometryOf r.geometry with
      | .error e => .error e
      | .ok geo =>
        match mkTags r.tags with
        | .error e => .error e
        | .ok tgs =>
          .ok { address_v4 := r.address_v4, address_v6 := r.address_v6,
                asn_v4 := r.asn_v4, asn_v6 := r.asn_v6,
                country_code := r.country_code, description := r.description,
                first_connected := r.first_connected, geometry := geo,
                id := r.id, is_anchor := r.is_anchor,
                is_public := r.is_public, last_connected := r.last_connected,
                prefix_v4 := r.prefix_v4, prefix_v6 := r.prefix_v6,
                status := st, status_since := r.status_since,
                tags := tgs, type := r.type }

/-- `Probe(**{})`: the all-default probe. -/
def probe0 : Probe :=
  { address_v4 := .str "", address_v6 := .str "", asn_v4 := .str "",
    asn_v6 := .str "", country_code := .str "", description := .str "",
    first_connected := .str "", geometry := defaultGeometry, id := .str "",
    is_anchor := .str "", is_public := .str "", last_connected := .str "",
    prefix_v4 := .str "", prefix_v6 := .str "", status := defaultStatus,
    status_since := .str "", tags := [], type := .str "" }

/-- `COL_SEP`, the column delimiter. -/
def COL_SEP : String := ","

/-- `TAG_SEP`, the tag delimiter. -/
def TAG_SEP : String := "+"

/-- Rendering of a Python `float` by `str`: the program only ever renders
floats whose value is integral (coordinates such as `20.0` and the
`-1111.0` sentinel), which Python prints as the integer part followed by
`.0`; the rendering of non-integral rationals is a placeholder, never
exercised by the statements below. -/
def floatStr (q : Rat) : String :=
  if q.den = 1 then toString q.num ++ ".0"
  else toString q.num ++ "/" ++ toString q.den

/-- `str(v)` as applied by `main` to each serialized column value.  The
columns serialized by the program are strings, ints, floats or bools; the
rendering of containers is a placeholder, never exercised by the statements
below. -/
def pyStr : Val → String
  | .null => "None"
  | .str s => s
  | .int n => toString n
  | .float q => floatStr q
  | .bool b => if b then "True" else "False"
  | .arr _ => "<list>"
  | .obj _ => "<dict>"

/-- ASCII uppercasing of one character, as `str.upper` does on the ASCII
data handled by the program. -/
def upChar (c : Char) : Char :=
  if 97 ≤ c.toNat ∧ c.toNat ≤ 122 then Char.ofNat (c.toNat - 32) else c

/-- `s.upper()` on an ASCII string. -/
def upperStr (s : String) : String := String.mk (s.data.map upChar)

/-- `p.status.name.upper()`: uppercasing requires the value to be a string
(anything else lacks the attribute and raises `AttributeError`). -/
def pyUpper (v : Val) : Except Err String :=
  match v with
  | .str s => .ok (upperStr s)
  | _ => .error (.attributeError "upper")

/-- The slugs handed to `TAG_SEP.join(t.slug for t in p.tags)`: `join`
requires every item to be a string and raises `TypeError` otherwise. -/
def slugStrs : List Tag → Except Err (List String)
  | [] => .ok []
  | t :: rest =>
    match t.slug with
    | .str s =>
      match slugStrs rest with
      | .error e => .error e
      | .ok ss => .ok (s :: ss)
    | _ => .error .typeError

/-- The 16 column strings of one output row, in the order of the tuple in
`main` (the two fallible computations, `p.status.name.upper()` and the slug
join, are evaluated in their tuple positions, `upper` first). -/
def serializeFields (p : Probe) : Except Err (List String) :=
  match pyUpper p.status.name with
  | .error e => .error e
  | .ok nm =>
    match slugStrs p.tags with
    | .error e => .error e
    | .ok slugs =>
      .ok [pyStr p.id, pyStr p.asn_v4, pyStr p.address_v4, pyStr p.prefix_v4,
           pyStr p.asn_v6, pyStr p.address_v6, pyStr p.prefix_v6,
           pyStr p.country_code,
           pyStr p.geometry.coordinates.lat, pyStr p.geometry.coordinates.lng,
           (if truthy p.is_anchor then "1" else "0"),
           (if truthy p.is_public then "1" else "0"),
           pyStr p.last_connected, nm, pyStr p.status_since,
           String.intercalate TAG_SEP slugs]

/-- One output row (without the trailing newline added by `f.write`):
`COL_SEP.join(str(v) for v in (...))`. -/
def serializeRow (p : Probe) : Except Err String :=
  match serializeFields p with
  | .error e => .error e
  | .ok fs => .ok (String.intercalate COL_SEP fs)

/-- One HTTP response as consumed by `get_probes`, with the JSON body
already parsed into its three fields `count`, `next` and `results`
(a malformed body is out of scope here: the program would fail while
reading `data['count']`, which no claim exercises). -/
structure Resp where
  status : Nat
  count : Nat
  next : Option String
  results : List RawObj

/-- `r.raise_for_status()`: raises `HTTPError` carrying the status code
exactly for client (4xx) and server (5xx) error statuses. -/
def raiseForStatus (s : Nat) : Option Err :=
  if 400 ≤ s ∧ s < 600 then some (.httpError s) else none

/-- Outcome of running the `get_probes` generator to exhaustion: the
entities yielded before termination, the exception (if any) that ended the
iteration, and the number of HTTP requests issued. -/
structure RunResult where
  yielded : List Probe
  err : Option Err
  requests : Nat

/-- Draining `get_probe_data(results)` for one page: probes are constructed
lazily one record at a time, so a failing record surfaces its exception
after the preceding records of the page have been yielded. -/
def pageProbes : List RawObj → List Probe × Option Err
  | [] => ([], none)
  | rec :: rest =>
    match mkProbe rec with
    | .error e => ([], some e)
    | .ok p =>
      let (ps, e) := pageProbes rest
      (p :: ps, e)

/-- The `while True` loop of `get_probes`, with the list argument scripting
the successive HTTP responses (one consumed per request; an exhausted
script models a transport failure).  Each iteration checks the status
(raising via `raise_for_status` on 4xx/5xx), stops on `count == 0`, yields
the normalized records of the page, stops on a null `next`, and otherwise
requests the next scripted response. -/
def getProbesFrom : List Resp → RunResult
  | [] => ⟨[], some .connectionError, 1⟩
  | r :: rest =>
    match (if r.status = 200 then none else raiseForStatus r.status) with
    | some e => ⟨[], some e, 1⟩
    | none =>
      if r.count = 0 then ⟨[], none, 1⟩
      else
        match pageProbes r.results with
        | (ps, some e) => ⟨ps, some e, 1⟩
        | (ps, none) =>
          match r.next with
          | none => ⟨ps, none, 1⟩
          | some _ =>
            let rr := getProbesFrom rest
            ⟨ps ++ rr.yielded, rr.err, rr.requests + 1⟩

/-- `get_probes()`, run against a script of responses. -/
def getProbes (pages : List Resp) : RunResult :=
  getProbesFrom pages

/-- Splitting a character list at every occurrence of a separator character
(used to state how many comma-separated fields an output line has). -/
def splitChar (c : Char) : List Char → List (List Char)
  | [] => [[]]
  | a :: rest =>
    match splitChar c rest with
    | [] => if a = c then [[], []] else [[a]]
    | g :: gs => if a = c then [] :: g :: gs else (a :: g) :: gs

/-- The comma-separated fields of an output line. -/
def commaFields (s : String) : List String :=
  (splitChar ',' s.data).map String.mk

/-- The synthetic record of the end-to-end scenario: full status, geometry
with coordinates `[10.0, 20.0]`, and two tags. -/
def rec3 : RawObj :=
  [("id", Val.int 1),
   ("status", Val.obj [("id", Val.int 1), ("name", Val.str "Connected"),
                       ("since", Val.str "2016-05-23")]),
   ("geometry", Val.obj [("type", Val.str "Point"),
                         ("coordinates", Val.arr [Val.float 10, Val.float 20])]),
   ("tags", Val.arr [Val.obj [("name", Val.str "a"), ("slug", Val.str "a1")],
                     Val.obj [("name", Val.str "b"), ("slug", Val.str "b2")]])]

/-- The probe normalized from `rec3`. -/
def probe3 : Probe :=
  { probe0 with
    id := Val.int 1,
    status := ⟨Val.str "2016-05-23", Val.int 1, Val.str "Connected"⟩,
    geometry := ⟨⟨Val.float 10, Val.float 20, Val.float 20, Val.float 10⟩,
                 Val.str "Point"⟩,
    tags := [⟨Val.str "a", Val.str "a1"⟩, ⟨Val.str "b", Val.str "b2"⟩] }

/-- The column strings serialized from `probe3`. -/
def fields3 : List String :=
  ["1", "", "", "", "", "", "", "", "20.0", "10.0", "0", "0", "",
   "CONNECTED", "", "a1+b2"]

/-- The output row serialized from `probe3`. -/
def row3 : String := "1,,,,,,,,20.0,10.0,0,0,,CONNECTED,,a1+b2"

/-- A record whose single tag mapping lacks the `slug` key. -/
def badTagRec : RawObj := [("tags", Val.arr [Val.obj [("name", Val.str "x")]])]

/-- A record whose geometry has an empty coordinates sequence. -/
def rec7 : RawObj :=
  [("geometry", Val.obj [("type", Val.str "Point"),
                         ("coordinates", Val.arr [])])]

/-- The probe normalized from `rec7`: sentinel coordinates. -/
def probe7 : Probe :=
  { probe0 with geometry := ⟨sentinelPoint, Val.str "Point"⟩ }

/-- A record whose geometry carries the coordinate pair `[10.0, 20.0]`. -/
def rec8 : RawObj :=
  [("geometry", Val.obj [("coordinates", Val.arr [Val.float 10, Val.float 20])])]

/-- The probe normalized from `rec8`. -/
def probe8 : Probe :=
  { probe0 with
    geometry := ⟨⟨Val.float 10, Val.float 20, Val.float 20, Val.float 10⟩,
                 Val.str ""⟩ }

/-- A record whose geometry carries a three-element coordinates sequence. -/
def rec10 : RawObj :=
  [("geometry", Val.obj [("coordinates",
      Val.arr [Val.float 1, Val.float 2, Val.float 3])])]

/-- A one-record page body carrying only an `id`. -/
def pageRec (n : Int) : RawObj := [("id", Val.int n)]

/-- The all-default probe with a given `id`. -/
def probeId (n : Int) : Probe := { probe0 with id := Val.int n }

/-! ### Helper lemmas about the keyword-assignment loops -/

theorem getKey_nil (key : String) : getKey [] key = none := rfl

theorem getD_cons (rest : List (String × Val)) (k : String) (v : Val)
    (key : String) (d : Val) :
    (getKey ((k, v) :: rest) key).getD d
      = (getKey rest key).getD (if k = key then v else d) := by
  rw [getKey]
  cases hg : getKey rest key with
  | none => split_ifs <;> simp
  | some w => simp

theorem setAttr_mem (r : RawProbe) (k : String) (v : Val)
    (h : k ∈ probeSlotNames) : ∃ r2, setAttr r k v = .ok r2 := by
  simp only [probeSlotNames, List.mem_cons, List.not_mem_nil, or_false] at h
  rcases h with rfl | rfl | rfl | rfl | rfl | rfl | rfl | rfl | rfl | rfl |
    rfl | rfl | rfl | rfl | rfl | rfl | rfl | rfl <;> exact ⟨_, rfl⟩

theorem setAttr_not_mem (r : RawProbe) (k : String) (v : Val)
    (h : k ∉ probeSlotNames) : setAttr r k v = .error (.attributeError k) := by
  simp only [probeSlotNames, List.mem_cons, List.not_mem_nil, or_false,
    not_or] at h
  obtain ⟨h1, h2, h3, h4, h5, h6, h7, h8, h9, h10, h11, h12, h13, h14, h15,
    h16, h17, h18⟩ := h
  unfold setAttr
  rw [if_neg h1, if_neg h2, if_neg h3, if_neg h4, if_neg h5, if_neg h6,
    if_neg h7, if_neg h8, if_neg h9, if_neg h10, if_neg h11, if_neg h12,
    if_neg h13, if_neg h14, if_neg h15, if_neg h16, if_neg h17, if_neg h18]

theorem setAttr_char (r r2 : RawProbe) (k : String) (v : Val)
    (h : setAttr r k v = .ok r2) :
    r2.status = (if k = "status" then v else r.status) ∧
    r2.geometry = (if k = "geometry" then v else r.geometry) ∧
    r2.tags = (if k = "tags" then v else r.tags) := by
  by_cases hk : k ∈ probeSlotNames
  · simp only [probeSlotNames, List.mem_cons, List.not_mem_nil, or_false]
      at hk
    rcases hk with rfl | rfl | rfl | rfl | rfl | rfl | rfl | rfl | rfl | rfl |
      rfl | rfl | rfl | rfl | rfl | rfl | rfl | rfl <;>
      (injection h with h; subst h; exact ⟨rfl, rfl, rfl⟩)
  · rw [setAttr_not_mem r k v hk] at h
    exact Except.noConfusion h

theorem setAll_fields : ∀ (kwargs : RawObj) (acc r : RawProbe),
    setAll acc kwargs = .ok r →
    r.status = (getKey kwargs "status").getD acc.status ∧
    r.geometry = (getKey kwargs "geometry").getD acc.geometry ∧
    r.tags = (getKey kwargs "tags").getD acc.tags
  | [], acc, r, h => by
    simp only [setAll] at h
    injection h with h
    subst h
    simp [getKey]
  | (k, v) :: rest, acc, r, h => by
    rw [setAll] at h
    cases hset : setAttr acc k v with
    | error e => rw [hset] at h; exact Except.noConfusion h
    | ok acc2 =>
      rw [hset] at h
      obtain ⟨hc1, hc2, hc3⟩ := setAttr_char acc acc2 k v hset
      obtain ⟨ih1, ih2, ih3⟩ := setAll_fields rest acc2 r h
      refine ⟨?_, ?_, ?_⟩
      · rw [getD_cons, ← hc1]; exact ih1
      · rw [getD_cons, ← hc2]; exact ih2
      · rw [getD_cons, ← hc3]; exact ih3

theorem setAll_err : ∀ (kwargs : RawObj) (acc : RawProbe) (k : String)
    (v : Val), (k, v) ∈ kwargs → k ∉ probeSlotNames →
    ∃ e, setAll acc kwargs = .error e
  | [], _, _, _, hmem, _ => absurd hmem (by simp)
  | (k0, v0) :: rest, acc, k, v, hmem, hk => by
    rw [setAll]
    by_cases h0 : k0 ∈ probeSlotNames
    · obtain ⟨acc2, hacc2⟩ := setAttr_mem acc k0 v0 h0
      rw [hacc2]
      rcases List.mem_cons.mp hmem with heq | hrest
      · injection heq with he1 he2
        subst he1
        exact absurd h0 hk
      · exact setAll_err rest acc2 k v hrest hk
    · rw [setAttr_not_mem acc k0 v0 h0]
      exact ⟨_, rfl⟩

theorem statusOf_falsy (v : Val) (h : truthy v = false) :
    statusOf v = .ok defaultStatus := by
  simp [statusOf, h]

theorem geometryOf_falsy (v : Val) (h : truthy v = false) :
    geometryOf v = .ok defaultGeometry := by
  simp [geometryOf, h]

theorem setAttrGeo_char (r r2 : GeoRaw) (k : String) (v : Val)
    (h : setAttrGeo r k v = .ok r2) :
    r2.coordinates = (if k = "coordinates" then v else r.coordinates) := by
  by_cases h1 : k = "coordinates"
  · subst h1; injection h with h; subst h; rfl
  · by_cases h2 : k = "type"
    · subst h2; injection h with h; subst h; rfl
    · unfold setAttrGeo at h
      rw [if_neg h1, if_neg h2] at h
      exact Except.noConfusion h

theorem setAllGeo_coords : ∀ (kvs : List (String × Val)) (acc g : GeoRaw),
    setAllGeo acc kvs = .ok g →
    g.coordinates = (getKey kvs "coordinates").getD acc.coordinates
  | [], acc, g, h => by
    simp only [setAllGeo] at h
    injection h with h
    subst h
    simp [getKey]
  | (k, v) :: rest, acc, g, h => by
    rw [setAllGeo] at h
    cases hset : setAttrGeo acc k v with
    | error e => rw [hset] at h; exact Except.noConfusion h
    | ok acc2 =>
      rw [hset] at h
      have hc := setAttrGeo_char acc acc2 k v hset
      have ih := setAllGeo_coords rest acc2 g h
      rw [getD_cons, ← hc]
      exact ih

theorem tagsOf_ok_mem : ∀ (ts : List Val) (l : List Tag),
    tagsOf ts = .ok l → ∀ t ∈ ts, ∃ tg, tagOf t = .ok tg
  | [], _, _, t, hmem => absurd hmem (by simp)
  | t0 :: rest, l, h, t, hmem => by
    rw [tagsOf] at h
    cases h0 : tagOf t0 with
    | error e => rw [h0] at h; exact Except.noConfusion h
    | ok tg0 =>
      rw [h0] at h
      cases hr : tagsOf rest with
      | error e => rw [hr] at h; exact Except.noConfusion h
      | ok tgs =>
        rcases List.mem_cons.mp hmem with rfl | hrest
        · exact ⟨tg0, h0⟩
        · exact tagsOf_ok_mem rest tgs hr t hrest

theorem mkProbe_ok_parts (kwargs : RawObj) (p : Probe)
    (h : mkProbe kwargs = .ok p) :
    ∃ r st geo tgs, setAll defaultRaw kwargs = .ok r ∧
      statusOf r.status = .ok st ∧ geometryOf r.geometry = .ok geo ∧
      mkTags r.tags = .ok tgs ∧
      p.status = st ∧ p.geometry = geo ∧ p.tags = tgs := by
  unfold mkProbe at h
  split at h
  · exact Except.noConfusion h
  rename_i r hr
  split at h
  · exact Except.noConfusion h
  rename_i st hst
  split at h
  · exact Except.noConfusion h
  rename_i geo hgeo
  split at h
  · exact Except.noConfusion h
  rename_i tgs htgs
  injection h with h
  subst h
  exact ⟨r, st, geo, tgs, hr, hst, hgeo, htgs, rfl, rfl, rfl⟩

/-! ### Helper lemmas about the pagination loop -/

theorem getProbesFrom_last (r : Resp) (rest : List Resp) (ps : List Probe)
    (hs : r.status = 200) (hc : r.count ≠ 0)
    (hp : pageProbes r.results = (ps, none)) (hn : r.next = none) :
    getProbesFrom (r :: rest) = ⟨ps, none, 1⟩ := by
  simp [getProbesFrom, hs, hn, hc, hp]

theorem getProbesFrom_next (r : Resp) (rest : List Resp) (ps : List Probe)
    (u : String) (hs : r.status = 200) (hc : r.count ≠ 0)
    (hp : pageProbes r.results = (ps, none)) (hn : r.next = some u) :
    getProbesFrom (r :: rest) =
      ⟨ps ++ (getProbesFrom rest).yielded, (getProbesFrom rest).err,
       (getProbesFrom rest).requests + 1⟩ := by
  simp [getProbesFrom, hs, hn, hc, hp]

theorem getProbesFrom_httpErr (r : Resp) (rest : List Resp)
    (h4 : 400 ≤ r.status) (h6 : r.status < 600) :
    getProbesFrom (r :: rest) = ⟨[], some (.httpError r.status), 1⟩ := by
  have hne : ¬ r.status = 200 := by omega
  simp [getProbesFrom, raiseForStatus, hne, h4, h6]

theorem getProbesFrom_pageErr (r : Resp) (rest : List Resp) (ps : List Probe)
    (e : Err) (hs : r.status = 200) (hc : r.count ≠ 0)
    (hp : pageProbes r.results = (ps, some e)) :
    getProbesFrom (r :: rest) = ⟨ps, some e, 1⟩ := by
  simp [getProbesFrom, hs, hc, hp]

/-! ### Claims -/

/-- C1, counterexample to the claim as stated: the raw record
`{'bogus': 'x'}` contains a key that is not a recognized `Probe` field, yet
normalization does not succeed and ignore it — it raises `AttributeError`
(because `Probe` declares `__slots__`), while the record with the unknown
key removed normalizes fine. -/
theorem c1_counterexample :
    mkProbe [("bogus", Val.str "x")] = .error (.attributeError "bogus") ∧
    mkProbe ([] : RawObj) = .ok probe0 :=
  ⟨rfl, rfl⟩

/-- C1, amended: for every raw record containing a key that is not a
recognized `Probe` field, normalization fails (with some exception — the
first unrecognized key encountered raises `AttributeError`) rather than
ignoring the key. -/
theorem c1_theorem (kwargs : RawObj) (k : String) (v : Val)
    (hmem : (k, v) ∈ kwargs) (hk : k ∉ probeSlotNames) :
    ∃ e, mkProbe kwargs = .error e := by
  obtain ⟨e, he⟩ := setAll_err kwargs defaultRaw k v hmem hk
  refine ⟨e, ?_⟩
  unfold mkProbe
  rw [he]

/-- C1, witness: the amended theorem applied to the concrete record
`{'unknown_key': 5}`. -/
theorem c1_witness : ∃ e, mkProbe [("unknown_key", Val.int 5)] = .error e :=
  c1_theorem _ "unknown_key" (Val.int 5) (by simp) (by decide)

/-- C2, counterexample to the claim as stated: the row serialized from the
all-default probe consists of 16 comma-separated fields, not 15. -/
theorem c2_counterexample :
    mkProbe ([] : RawObj) = .ok probe0 ∧
    serializeRow probe0 = .ok ",,,,,,,,-1111.0,-1111.0,0,0,,,," ∧
    (commaFields ",,,,,,,,-1111.0,-1111.0,0,0,,,,").length = 16 ∧
    (16 : Nat) ≠ 15 :=
  ⟨rfl, rfl, rfl, by decide⟩

/-- C2, amended: the serialized output line consists of exactly 16
comma-separated fields, in the order id, asn_v4, address_v4, prefix_v4,
asn_v6, address_v6, prefix_v6, country_code, latitude, longitude,
anchor-flag (1/0), public-flag (1/0), last_connected, upper-cased status
name, status_since, tags joined by `+`. -/
theorem c2_theorem (p : Probe) (fs : List String)
    (h : serializeFields p = .ok fs) :
    fs.length = 16 ∧
    serializeRow p = .ok (String.intercalate COL_SEP fs) ∧
    ∃ nm slugs, pyUpper p.status.name = .ok nm ∧ slugStrs p.tags = .ok slugs ∧
      fs = [pyStr p.id, pyStr p.asn_v4, pyStr p.address_v4, pyStr p.prefix_v4,
            pyStr p.asn_v6, pyStr p.address_v6, pyStr p.prefix_v6,
            pyStr p.country_code, pyStr p.geometry.coordinates.lat,
            pyStr p.geometry.coordinates.lng,
            (if truthy p.is_anchor then "1" else "0"),
            (if truthy p.is_public then "1" else "0"),
            pyStr p.last_connected, nm, pyStr p.status_since,
            String.intercalate TAG_SEP slugs] := by
  have hrow : serializeRow p = .ok (String.intercalate COL_SEP fs) := by
    unfold serializeRow
    rw [h]
  unfold serializeFields at h
  split at h
  · exact Except.noConfusion h
  rename_i nm hnm
  split at h
  · exact Except.noConfusion h
  rename_i slugs hslugs
  injection h with h
  subst h
  exact ⟨rfl, hrow, nm, slugs, hnm, hslugs, rfl⟩

/-- C2, witness: the amended theorem applied to the all-default probe. -/
theorem c2_witness :
    ∃ fs, serializeFields probe0 = .ok fs ∧ fs.length = 16 :=
  ⟨_, rfl, (c2_theorem probe0 _ rfl).1⟩

/-- C3, counterexample to the claim as stated: the synthetic record's row
does not end in `,A1+B2` — tag slugs are joined verbatim, only the status
name is upper-cased. -/
theorem c3_counterexample :
    mkProbe rec3 = .ok probe3 ∧
    serializeRow probe3 = .ok row3 ∧
    (",A1+B2".data.isSuffixOf row3.data) = false :=
  ⟨rfl, rfl, rfl⟩

/-- C3, amended: the synthetic record (full status, geometry
`[10.0, 20.0]`, tags `a/a1` and `b/b2`) serializes to a row ending in
`,a1+b2`, whose latitude field (9th) is `20.0` and whose longitude field
(10th) is `10.0`. -/
theorem c3_theorem :
    mkProbe rec3 = .ok probe3 ∧
    serializeFields probe3 = .ok fields3 ∧
    fields3[8]? = some "20.0" ∧
    fields3[9]? = some "10.0" ∧
    serializeRow probe3 = .ok row3 ∧
    (",a1+b2".data.isSuffixOf row3.data) = true :=
  ⟨rfl, rfl, rfl, rfl, rfl, rfl⟩

/-- C4: a tag mapping lacking `name` (or lacking `slug`) makes its lookup
raise a field-missing failure; a record containing such a tag can never
normalize to a `Probe`; and a page whose normalization fails aborts the
whole run at that page — the probes normalized before the failing record
are yielded, the error surfaces, no later page is requested. -/
theorem c4_theorem :
    (∀ kvs, getKey kvs "name" = none →
      tagOf (Val.obj kvs) = .error (.missingField "name")) ∧
    (∀ kvs v, getKey kvs "name" = some v → getKey kvs "slug" = none →
      tagOf (Val.obj kvs) = .error (.missingField "slug")) ∧
    (∀ (kwargs : RawObj) (ts : List Val) (t : Val),
      getKey kwargs "tags" = some (Val.arr ts) → t ∈ ts →
      (∀ tg, tagOf t ≠ .ok tg) → ∀ p, mkProbe kwargs ≠ .ok p) ∧
    (∀ (r : Resp) (rest : List Resp) (ps : List Probe) (e : Err),
      r.status = 200 → r.count ≠ 0 → pageProbes r.results = (ps, some e) →
      getProbesFrom (r :: rest) = ⟨ps, some e, 1⟩) := by
  have htag : ∀ kvs, tagOf (Val.obj kvs)
      = (match getKey kvs "name" with
         | none => Except.error (Err.missingField "name")
         | some n =>
           match getKey kvs "slug" with
           | none => Except.error (Err.missingField "slug")
           | some s => Except.ok ⟨n, s⟩) := fun _ => rfl
  refine ⟨?_, ?_, ?_, ?_⟩
  · intro kvs h
    rw [htag, h]
  · intro kvs v h1 h2
    rw [htag, h1, h2]
  · intro kwargs ts t hg hmem hfail p hok
    obtain ⟨r, st, geo, tgs, hr, hst, hgeo, htags, _, _, _⟩ :=
      mkProbe_ok_parts kwargs p hok
    obtain ⟨_, _, h3⟩ := setAll_fields kwargs defaultRaw r hr
    rw [hg] at h3
    rw [show (some (Val.arr ts)).getD defaultRaw.tags = Val.arr ts from rfl]
      at h3
    rw [h3] at htags
    rw [show mkTags (Val.arr ts) = tagsOf ts from rfl] at htags
    obtain ⟨tg, htg⟩ := tagsOf_ok_mem ts tgs htags t hmem
    exact hfail tg htg
  · exact getProbesFrom_pageErr

/-- C4, witness: the concrete failures — a tag `{}` misses `name`, a tag
`{'name': 'x'}` misses `slug`, the record carrying the latter never
normalizes, and a page containing it aborts the run with the
`slug`-missing failure after one request. -/
theorem c4_witness :
    tagOf (Val.obj []) = .error (.missingField "name") ∧
    tagOf (Val.obj [("name", Val.str "x")]) = .error (.missingField "slug") ∧
    mkProbe badTagRec ≠ .ok probe0 ∧
    getProbesFrom [⟨200, 1, some "u", [badTagRec]⟩, ⟨200, 1, none, []⟩]
      = ⟨[], some (.missingField "slug"), 1⟩ := by
  refine ⟨c4_theorem.1 [] rfl,
    c4_theorem.2.1 [("name", Val.str "x")] (Val.str "x") rfl rfl, ?_, ?_⟩
  · exact c4_theorem.2.2.1 badTagRec [Val.obj [("name", Val.str "x")]]
      (Val.obj [("name", Val.str "x")]) rfl (by simp)
      (fun tg htg => by
        rw [show tagOf (Val.obj [("name", Val.str "x")])
              = .error (.missingField "slug") from rfl] at htg
        exact Except.noConfusion htg)
      probe0
  · exact c4_theorem.2.2.2 ⟨200, 1, some "u", [badTagRec]⟩
      [⟨200, 1, none, []⟩] [] (.missingField "slug") rfl (by decide) rfl

/-! ### Equation-shaped helpers for `geometryOf` and `mkGeometry` -/

theorem geometryOf_obj_truthy (kvs : List (String × Val))
    (ht : truthy (Val.obj kvs) = true) :
    geometryOf (Val.obj kvs) = mkGeometry kvs := by
  have h1 : geometryOf (Val.obj kvs)
      = if truthy (Val.obj kvs) then mkGeometry kvs
        else .ok defaultGeometry := rfl
  rw [h1, if_pos ht]

theorem mkGeometry_eq_ite (kvs : List (String × Val)) (g2 : GeoRaw)
    (hsg : setAllGeo ⟨Val.str "", Val.str ""⟩ kvs = .ok g2) :
    mkGeometry kvs
      = (if truthy g2.coordinates then
           match pointOf g2.coordinates with
           | .error e => .error e
           | .ok pt => .ok ⟨pt, g2.type⟩
         else .ok ⟨sentinelPoint, g2.type⟩) := by
  unfold mkGeometry
  rw [hsg]

theorem mkGeometry_err (kvs : List (String × Val)) (e : Err)
    (hsg : setAllGeo ⟨Val.str "", Val.str ""⟩ kvs = .error e) :
    mkGeometry kvs = .error e := by
  unfold mkGeometry
  rw [hsg]

theorem mkGeometry_sentinel (kvs : List (String × Val)) (g2 : GeoRaw)
    (hsg : setAllGeo ⟨Val.str "", Val.str ""⟩ kvs = .ok g2)
    (hf : truthy g2.coordinates = false) :
    mkGeometry kvs = .ok ⟨sentinelPoint, g2.type⟩ := by
  rw [mkGeometry_eq_ite kvs g2 hsg, if_neg (by simp [hf])]

theorem mkGeometry_point (kvs : List (String × Val)) (g2 : GeoRaw) (pt : Point)
    (hsg : setAllGeo ⟨Val.str "", Val.str ""⟩ kvs = .ok g2)
    (ht : truthy g2.coordinates = true)
    (hpt : pointOf g2.coordinates = .ok pt) :
    mkGeometry kvs = .ok ⟨pt, g2.type⟩ := by
  rw [mkGeometry_eq_ite kvs g2 hsg, if_pos ht, hpt]

theorem mkGeometry_ptErr (kvs : List (String × Val)) (g2 : GeoRaw) (e : Err)
    (hsg : setAllGeo ⟨Val.str "", Val.str ""⟩ kvs = .ok g2)
    (ht : truthy g2.coordinates = true)
    (hpt : pointOf g2.coordinates = .error e) :
    mkGeometry kvs = .error e := by
  rw [mkGeometry_eq_ite kvs g2 hsg, if_pos ht, hpt]

/-- C5: a server answering with three pages — pages 1 and 2 with a non-null
`next` and nonzero count, page 3 with a null `next` — makes the paginator
yield the normalized records of all three pages in server order, terminate
after page 3, and issue exactly 3 requests. -/
theorem c5_theorem (rs1 rs2 rs3 : List RawObj) (ps1 ps2 ps3 : List Probe)
    (u1 u2 : String) (n1 n2 n3 : Nat)
    (h1 : pageProbes rs1 = (ps1, none)) (h2 : pageProbes rs2 = (ps2, none))
    (h3 : pageProbes rs3 = (ps3, none))
    (hn1 : n1 ≠ 0) (hn2 : n2 ≠ 0) (hn3 : n3 ≠ 0) :
    getProbes [⟨200, n1, some u1, rs1⟩, ⟨200, n2, some u2, rs2⟩,
               ⟨200, n3, none, rs3⟩]
      = ⟨ps1 ++ (ps2 ++ ps3), none, 3⟩ := by
  unfold getProbes
  rw [getProbesFrom_next ⟨200, n1, some u1, rs1⟩ _ ps1 u1 rfl hn1 h1 rfl]
  rw [getProbesFrom_next ⟨200, n2, some u2, rs2⟩ _ ps2 u2 rfl hn2 h2 rfl]
  rw [getProbesFrom_last ⟨200, n3, none, rs3⟩ _ ps3 rfl hn3 h3 rfl]

/-- C5, witness: three concrete one-record pages. -/
theorem c5_witness :
    getProbes [⟨200, 3, some "u1", [pageRec 1]⟩, ⟨200, 3, some "u2", [pageRec 2]⟩,
               ⟨200, 3, none, [pageRec 3]⟩]
      = ⟨[probeId 1] ++ ([probeId 2] ++ [probeId 3]), none, 3⟩ :=
  c5_theorem [pageRec 1] [pageRec 2] [pageRec 3]
    [probeId 1] [probeId 2] [probeId 3] "u1" "u2" 3 3 3
    rfl rfl rfl (by decide) (by decide) (by decide)

/-- C6: after any prefix of good pages (status 200, nonzero count, non-null
`next`, cleanly normalized records), a page answered with a non-success
(4xx/5xx) status makes the paginator raise an HTTP error carrying that
status code at that page boundary: the probes of the earlier pages are
yielded unchanged, nothing from the failing response or any later one is
yielded, and no request beyond the failing one is issued. -/
theorem c6_theorem : ∀ (gs : List Resp) (bad : Resp) (rest : List Resp),
    (∀ g ∈ gs, g.status = 200 ∧ g.count ≠ 0 ∧ (∃ u, g.next = some u) ∧
      (pageProbes g.results).2 = none) →
    400 ≤ bad.status → bad.status < 600 →
    getProbesFrom (gs ++ bad :: rest)
      = ⟨(gs.map (fun g => (pageProbes g.results).1)).flatten,
         some (.httpError bad.status), gs.length + 1⟩
  | [], bad, rest, _, h4, h6 => by
    rw [List.nil_append, getProbesFrom_httpErr bad rest h4 h6]
    rfl
  | g :: gs2, bad, rest, hgs, h4, h6 => by
    obtain ⟨hs, hc, ⟨u, hu⟩, hp2⟩ := hgs g (List.mem_cons_self g gs2)
    have ih := c6_theorem gs2 bad rest
      (fun g2 hg2 => hgs g2 (List.mem_cons_of_mem g hg2)) h4 h6
    cases hpp : pageProbes g.results with
    | mk ps e2 =>
      have he2 : e2 = none := by rw [hpp] at hp2; exact hp2
      subst he2
      rw [List.cons_append,
        getProbesFrom_next g (gs2 ++ bad :: rest) ps u hs hc hpp hu, ih]
      simp [hpp, List.flatten]

/-- C6, witness: one good page followed by an HTTP 500 page. -/
theorem c6_witness :
    getProbesFrom [⟨200, 1, some "u", [pageRec 1]⟩, ⟨500, 1, none, []⟩]
      = ⟨[probeId 1], some (.httpError 500), 2⟩ := by
  have h := c6_theorem [⟨200, 1, some "u", [pageRec 1]⟩] ⟨500, 1, none, []⟩ []
    (by
      intro g hg
      rw [List.mem_singleton] at hg
      subst hg
      exact ⟨rfl, by decide, ⟨"u", rfl⟩, rfl⟩)
    (by decide) (by decide)
  exact h

/-- C7: whenever normalization succeeds on a record whose geometry value is
falsy (absent, or an empty sub-structure) or whose geometry is an object
with an absent or falsy (e.g. empty) `coordinates` entry, the resulting
probe's geometry coordinates are the sentinel `Point(-1111.0, -1111.0)`,
with `x = y = lat = lng = -1111.0`. -/
theorem c7_theorem (kwargs : RawObj) (p : Probe) (hp : mkProbe kwargs = .ok p)
    (hg : truthy ((getKey kwargs "geometry").getD (Val.str "")) = false ∨
      ∃ kvs, (getKey kwargs "geometry").getD (Val.str "") = Val.obj kvs ∧
        truthy ((getKey kvs "coordinates").getD (Val.str "")) = false) :
    p.geometry.coordinates = sentinelPoint ∧
    p.geometry.coordinates.x = Val.float (-1111) ∧
    p.geometry.coordinates.y = Val.float (-1111) ∧
    p.geometry.coordinates.lat = Val.float (-1111) ∧
    p.geometry.coordinates.lng = Val.float (-1111) := by
  obtain ⟨r, st, geo, tgs, hr, hst, hgeo, htags, hps, hpg, hpt⟩ :=
    mkProbe_ok_parts kwargs p hp
  obtain ⟨_, h2, _⟩ := setAll_fields kwargs defaultRaw r hr
  rw [show defaultRaw.geometry = Val.str "" from rfl] at h2
  have hmain : geo.coordinates = sentinelPoint := by
    rcases hg with hf | ⟨kvs, hkv, hcf⟩
    · rw [h2] at hgeo
      rw [geometryOf_falsy _ hf] at hgeo
      injection hgeo with hgeo
      rw [← hgeo]
      exact rfl
    · rw [h2, hkv] at hgeo
      cases ht : truthy (Val.obj kvs) with
      | false =>
        rw [geometryOf_falsy _ ht] at hgeo
        injection hgeo with hgeo
        rw [← hgeo]
        exact rfl
      | true =>
        rw [geometryOf_obj_truthy kvs ht] at hgeo
        cases hsg : setAllGeo ⟨Val.str "", Val.str ""⟩ kvs with
        | error e =>
          rw [mkGeometry_err kvs e hsg] at hgeo
          exact Except.noConfusion hgeo
        | ok g2 =>
          have hco := setAllGeo_coords kvs _ g2 hsg
          rw [show (⟨Val.str "", Val.str ""⟩ : GeoRaw).coordinates
                = Val.str "" from rfl] at hco
          have hfc : truthy g2.coordinates = false := by rw [hco]; exact hcf
          rw [mkGeometry_sentinel kvs g2 hsg hfc] at hgeo
          injection hgeo with hgeo
          rw [← hgeo]
  rw [hpg]
  refine ⟨hmain, ?_, ?_, ?_, ?_⟩ <;> (rw [hmain]; exact rfl)

/-- C7, witness: a record with geometry `{'type': 'Point',
'coordinates': []}` normalizes to the sentinel coordinates. -/
theorem c7_witness :
    probe7.geometry.coordinates = sentinelPoint ∧
    probe7.geometry.coordinates.x = Val.float (-1111) ∧
    probe7.geometry.coordinates.y = Val.float (-1111) ∧
    probe7.geometry.coordinates.lat = Val.float (-1111) ∧
    probe7.geometry.coordinates.lng = Val.float (-1111) :=
  c7_theorem rec7 probe7 rfl (Or.inr ⟨_, rfl, rfl⟩)

/-- C8: whenever normalization succeeds on a record whose geometry object
carries a two-element coordinate pair `[lon, lat]`, the resulting point has
`x = lon`, `y = lat`, `lng = lon` and `lat = lat` exactly. -/
theorem c8_theorem (kwargs : RawObj) (p : Probe) (gkvs : List (String × Val))
    (lon la : Val) (hp : mkProbe kwargs = .ok p)
    (hg : getKey kwargs "geometry" = some (Val.obj gkvs))
    (hc : getKey gkvs "coordinates" = some (Val.arr [lon, la])) :
    p.geometry.coordinates.x = lon ∧ p.geometry.coordinates.y = la ∧
    p.geometry.coordinates.lng = lon ∧ p.geometry.coordinates.lat = la := by
  obtain ⟨r, st, geo, tgs, hr, hst, hgeo, htags, hps, hpg, hpt⟩ :=
    mkProbe_ok_parts kwargs p hp
  obtain ⟨_, h2, _⟩ := setAll_fields kwargs defaultRaw r hr
  rw [hg, show (some (Val.obj gkvs)).getD defaultRaw.geometry
        = Val.obj gkvs from rfl] at h2
  rw [h2] at hgeo
  cases gkvs with
  | nil => exact Option.noConfusion hc
  | cons kv rest =>
    rw [geometryOf_obj_truthy (kv :: rest) rfl] at hgeo
    cases hsg : setAllGeo ⟨Val.str "", Val.str ""⟩ (kv :: rest) with
    | error e =>
      rw [mkGeometry_err (kv :: rest) e hsg] at hgeo
      exact Except.noConfusion hgeo
    | ok g2 =>
      have hco := setAllGeo_coords (kv :: rest) _ g2 hsg
      rw [hc, show (some (Val.arr [lon, la])).getD
            (⟨Val.str "", Val.str ""⟩ : GeoRaw).coordinates
            = Val.arr [lon, la] from rfl] at hco
      have hpoint : pointOf g2.coordinates = .ok ⟨lon, la, la, lon⟩ := by
        rw [hco]
        exact rfl
      rw [mkGeometry_point (kv :: rest) g2 ⟨lon, la, la, lon⟩ hsg
        (by rw [hco]; rfl) hpoint] at hgeo
      injection hgeo with hgeo
      rw [hpg, ← hgeo]
      exact ⟨rfl, rfl, rfl, rfl⟩

/-- C8, witness: a record with coordinates `[10.0, 20.0]` yields
`x = lng = 10.0` and `y = lat = 20.0`. -/
theorem c8_witness :
    probe8.geometry.coordinates.x = Val.float 10 ∧
    probe8.geometry.coordinates.y = Val.float 20 ∧
    probe8.geometry.coordinates.lng = Val.float 10 ∧
    probe8.geometry.coordinates.lat = Val.float 20 :=
  c8_theorem rec8 probe8 _ (Val.float 10) (Val.float 20) rfl rfl rfl

/-- C9: every successfully constructed probe has a `Status` entity that is
all-default whenever the raw record supplied no (or a falsy, e.g. empty)
`status`, a `Geometry` entity (whose coordinates are a `Point`) that is the
default one whenever the raw record supplied no (or a falsy) `geometry`,
and a tags list that is empty (never absent) when the record supplied no
`tags`. -/
theorem c9_theorem (kwargs : RawObj) (p : Probe)
    (hp : mkProbe kwargs = .ok p) :
    (truthy ((getKey kwargs "status").getD (Val.str "")) = false →
      p.status = defaultStatus) ∧
    (truthy ((getKey kwargs "geometry").getD (Val.str "")) = false →
      p.geometry = defaultGeometry) ∧
    (getKey kwargs "tags" = none → p.tags = []) := by
  obtain ⟨r, st, geo, tgs, hr, hst, hgeo, htags, hps, hpg, hpt⟩ :=
    mkProbe_ok_parts kwargs p hp
  obtain ⟨h1, h2, h3⟩ := setAll_fields kwargs defaultRaw r hr
  rw [show defaultRaw.status = Val.str "" from rfl] at h1
  rw [show defaultRaw.geometry = Val.str "" from rfl] at h2
  refine ⟨?_, ?_, ?_⟩
  · intro hf
    rw [h1] at hst
    rw [statusOf_falsy _ hf] at hst
    injection hst with hst
    rw [hps, ← hst]
  · intro hf
    rw [h2] at hgeo
    rw [geometryOf_falsy _ hf] at hgeo
    injection hgeo with hgeo
    rw [hpg, ← hgeo]
  · intro hn
    rw [h3, hn] at htags
    rw [show (Option.getD (none : Option Val) defaultRaw.tags)
          = Val.str "" from rfl] at htags
    rw [show mkTags (Val.str "") = .ok ([] : List Tag) from rfl] at htags
    injection htags with htags
    rw [hpt, ← htags]

/-- C9, witness: the empty record yields the all-default probe with default
status, default geometry and empty tags. -/
theorem c9_witness :
    probe0.status = defaultStatus ∧ probe0.geometry = defaultGeometry ∧
    probe0.tags = [] := by
  obtain ⟨a, b, c⟩ := c9_theorem [] probe0 rfl
  exact ⟨a rfl, b rfl, c rfl⟩

/-- C10: a record whose geometry object carries a non-empty coordinates
sequence of length other than two can never normalize to a probe — the
two-element destructuring in `Point.__init__` fails; success is only
possible for empty or exactly-two-element coordinate sequences. -/
theorem c10_theorem (kwargs : RawObj) (gkvs : List (String × Val))
    (cs : List Val) (hg : getKey kwargs "geometry" = some (Val.obj gkvs))
    (hc : getKey gkvs "coordinates" = some (Val.arr cs))
    (hne : cs ≠ []) (hlen : cs.length ≠ 2) :
    ∀ p, mkProbe kwargs ≠ .ok p := by
  intro p hp
  obtain ⟨r, st, geo, tgs, hr, hst, hgeo, htags, _, _, _⟩ :=
    mkProbe_ok_parts kwargs p hp
  obtain ⟨_, h2, _⟩ := setAll_fields kwargs defaultRaw r hr
  rw [hg, show (some (Val.obj gkvs)).getD defaultRaw.geometry
        = Val.obj gkvs from rfl] at h2
  rw [h2] at hgeo
  cases gkvs with
  | nil => exact Option.noConfusion hc
  | cons kv rest =>
    rw [geometryOf_obj_truthy (kv :: rest) rfl] at hgeo
    cases hsg : setAllGeo ⟨Val.str "", Val.str ""⟩ (kv :: rest) with
    | error e =>
      rw [mkGeometry_err (kv :: rest) e hsg] at hgeo
      exact Except.noConfusion hgeo
    | ok g2 =>
      have hco := setAllGeo_coords (kv :: rest) _ g2 hsg
      rw [hc, show (some (Val.arr cs)).getD
            (⟨Val.str "", Val.str ""⟩ : GeoRaw).coordinates
            = Val.arr cs from rfl] at hco
      have htr : truthy g2.coordinates = true := by
        rw [hco]
        rcases cs with _ | ⟨a, cs2⟩
        · exact absurd rfl hne
        · rfl
      have hpf : pointOf g2.coordinates = .error .valueError := by
        rw [hco]
        rcases cs with _ | ⟨a, _ | ⟨b, _ | ⟨c, t⟩⟩⟩
        · exact absurd rfl hne
        · rfl
        · exact absurd rfl hlen
        · rfl
      rw [mkGeometry_ptErr (kv :: rest) g2 .valueError hsg htr hpf] at hgeo
      exact Except.noConfusion hgeo

/-- C10, witness: the record with coordinates `[1.0, 2.0, 3.0]` does not
normalize. -/
theorem c10_witness :
    mkProbe rec10 ≠ .ok probe0 :=
  c10_theorem rec10 _ [Val.float 1, Val.float 2, Val.float 3] rfl rfl
    (by simp) (by decide) probe0
